import Mathlib

/-!
Verification of the authentication/authorization core of the todo backend
(`src/api/auth.py`, `src/core/security.py`, `src/api/deps.py`,
`src/core/middleware.py`, `src/api/tasks.py`, `src/services/task_service.py`)
against its natural-language specification.

The embedding is shallow: Python functions become Lean functions; the
nondeterministic inputs of a request (fresh UUIDs, bcrypt salts, the clock)
are explicit parameters; a Python function that can let an exception escape
to its caller returns an `Outcome`-style value with a `raised` constructor.
Library collaborators (PyJWT, passlib, `uuid.UUID`, the pydantic models)
are modelled by their documented behaviour at the granularity the
application observes.
-/

namespace TodoAuth

/-- The claim set carried in a token payload as this application uses it:
`sub`, `email`, `name` are JSON strings when present; `exp` and `iat` are
numeric unix-timestamp claims.  This is the payload dict built by
`create_access_token` (`src/api/auth.py`) and consumed by `decode_token`
(`src/core/security.py`). -/
structure JwtClaims where
  sub : Option String
  email : Option String
  name : Option String
  exp : Option Int
  iat : Option Int
deriving DecidableEq, Repr

/-- A token wire string.  A structurally well-formed three-part token is
determined by its header algorithm, its payload claims, and the key its
signature was computed with; every other input string is `malformed`. -/
inductive Jwt where
  | signed (alg : String) (claims : JwtClaims) (key : String)
  | malformed (s : String)
deriving DecidableEq, Repr

/-- Errors raised by `jwt.decode`.  In PyJWT every one of these is a
subclass of `jwt.InvalidTokenError`, so each is caught by the two
`except` clauses of `decode_token`. -/
inductive JwtError where
  | expiredSignature
  | invalidAlgorithm
  | invalidSignature
  | decodeError
deriving DecidableEq, Repr

/-- `ALGORITHM` from `src/core/security.py` line 14. -/
def ALGORITHM : String := "HS256"

/-- The process-wide signing secret `settings.BETTER_AUTH_SECRET`
(`src/core/config.py`): an opaque configuration string fixed at startup,
modelled as a fixed string value. -/
def BETTER_AUTH_SECRET : String := "better-auth-secret"

/-- Model of PyJWT `jwt.decode(token, key, algorithms)` evaluated with the
clock at `now` (unix seconds): a malformed string fails to decode; a
header algorithm outside the allow-list is rejected; the signature must
have been produced with `key`; and only when an `exp` claim is present is
expiry checked, the token being expired once `exp <= now` (PyJWT raises
`ExpiredSignatureError` when `exp <= now` with zero leeway).  `iat` is not
validated. -/
def jwtDecode (token : Jwt) (key : String) (algs : List String) (now : Int) :
    Except JwtError JwtClaims :=
  match token with
  | .malformed _ => .error .decodeError
  | .signed alg claims sigKey =>
    if alg ∉ algs then .error .invalidAlgorithm
    else if sigKey ≠ key then .error .invalidSignature
    else
      match claims.exp with
      | some e => if e ≤ now then .error .expiredSignature else .ok claims
      | none => .ok claims

/-- `TokenPayload` from `src/core/security.py`: `sub` is required, the
other fields are optional.  The extra `name` claim of issued tokens is
ignored by the pydantic model. -/
structure TokenPayload where
  sub : String
  email : Option String
  exp : Option Int
  iat : Option Int
deriving DecidableEq, Repr

/-- `AuthenticatedUser` from `src/core/security.py`: `id` is a
`uuid.UUID`, modelled by its 128-bit integer value. -/
structure AuthenticatedUser where
  id : Nat
  email : Option String
deriving DecidableEq, Repr

/-- Left-to-right non-overlapping removal of every occurrence of the
pattern `hd :: tl`, as in Python `s.replace(pat, "")`; `fuel` bounds the
number of characters consumed, so `fuel = l.length` processes all of `l`. -/
def removePatAux (hd : Char) (tl : List Char) : Nat → List Char → List Char
  | 0, l => l
  | _ + 1, [] => []
  | fuel + 1, c :: rest =>
    if (hd :: tl).isPrefixOf (c :: rest) then removePatAux hd tl fuel (rest.drop tl.length)
    else c :: removePatAux hd tl fuel rest

/-- Python `s.replace(pat, "")` for the nonempty pattern `hd :: tl`. -/
def removePat (hd : Char) (tl : List Char) (l : List Char) : List Char :=
  removePatAux hd tl l.length l

/-- Whether a character is one of the curly-brace characters stripped by
`uuid.UUID`. -/
def isCurly (c : Char) : Bool := c == Char.ofNat 123 || c == Char.ofNat 125

/-- Whether a character is a hexadecimal digit. -/
def isHexDigit (c : Char) : Bool :=
  ('0' ≤ c && c ≤ '9') || ('a' ≤ c && c ≤ 'f') || ('A' ≤ c && c ≤ 'F')

/-- Numeric value of a hexadecimal digit (0 on other characters). -/
def hexVal (c : Char) : Nat :=
  if '0' ≤ c && c ≤ '9' then c.toNat - 48
  else if 'a' ≤ c && c ≤ 'f' then c.toNat - 87
  else if 'A' ≤ c && c ≤ 'F' then c.toNat - 55
  else 0

/-- Model of the Python `uuid.UUID(hex)` string constructor, used by
`get_user_from_token` via `UUID(payload.sub)`: drops the `urn:` and
`uuid:` markers, strips curly braces at both ends, removes hyphens, then
requires exactly 32 hexadecimal digits whose value is the UUID.  Any
other string raises `ValueError`, modelled as `none`. -/
def uuidParse (s : String) : Option Nat :=
  let h1 := removePat 'u' ['r', 'n', ':'] s.data
  let h2 := removePat 'u' ['u', 'i', 'd', ':'] h1
  let h3 := ((h2.dropWhile isCurly).reverse.dropWhile isCurly).reverse
  let h4 := h3.filter (fun c => !(c == '-'))
  if h4.length = 32 && h4.all isHexDigit then
    some (h4.foldl (fun acc c => 16 * acc + hexVal c) 0)
  else none

/-- The outcome of calling a Python function that normally returns an
`Optional` value: either a returned value, or an exception escaping to
the caller. -/
inductive Outcome (α : Type) where
  | ret (x : Option α)
  | raised
deriving DecidableEq, Repr

/-- `decode_token` from `src/core/security.py`: decodes with the fixed
secret and the one-element algorithm allow-list `[ALGORITHM]`; every
`jwt`-level failure is caught and becomes `None`.  Building
`TokenPayload(**payload)` from a payload with no `sub` claim raises a
pydantic `ValidationError`, which neither `except` clause catches. -/
def decode_token (token : Jwt) (now : Int) : Outcome TokenPayload :=
  match jwtDecode token BETTER_AUTH_SECRET [ALGORITHM] now with
  | .error _ => .ret none
  | .ok claims =>
    match claims.sub with
    | some s =>
      .ret (some { sub := s, email := claims.email, exp := claims.exp, iat := claims.iat })
    | none => .raised

/-- `get_user_from_token` from `src/core/security.py`: decodes the token,
then parses `sub` as a UUID; `ValueError`/`TypeError` from the UUID
constructor is caught and becomes `None`. -/
def get_user_from_token (token : Jwt) (now : Int) : Outcome AuthenticatedUser :=
  match decode_token token now with
  | .raised => .raised
  | .ret none => .ret none
  | .ret (some payload) =>
    match uuidParse payload.sub with
    | some uid => .ret (some { id := uid, email := payload.email })
    | none => .ret none

/-- The number of seconds in `timedelta(days=7)`. -/
def sevenDays : Int := 7 * 86400

/-- `create_access_token` from `src/api/auth.py`: claim set
`{sub: user_id, email, name, exp: now + 7 days, iat: now}`, signed with
the configured secret under HS256. -/
def create_access_token (user_id email name : String) (now : Int) : Jwt :=
  .signed "HS256"
    { sub := some user_id, email := some email, name := some name,
      exp := some (now + sevenDays), iat := some now }
    BETTER_AUTH_SECRET

/-- C1: a token issued by `create_access_token(u, e, n)` at time `t` is
accepted by `get_user_from_token`, yielding the identity `{u, e}`, at
every time in `[t, t + 7 days)`, and is rejected (`None`) at or after
`t + 7 days`.  `u` ranges over the system's user ids, i.e. strings that
parse as UUIDs. -/
theorem issued_token_valid_window (u e n : String) (uid : Nat) (t now : Int)
    (hu : uuidParse u = some uid) :
    (t ≤ now → now < t + 7 * 86400 →
      get_user_from_token (create_access_token u e n t) now =
        .ret (some { id := uid, email := some e })) ∧
    (t + 7 * 86400 ≤ now →
      get_user_from_token (create_access_token u e n t) now = .ret none) := by
  constructor
  · intro h1 h2
    have hexp : ¬ (t + sevenDays ≤ now) := by simp only [sevenDays]; omega
    simp [get_user_from_token, decode_token, create_access_token, jwtDecode, ALGORITHM,
      hexp, hu]
  · intro h
    have hexp : t + sevenDays ≤ now := by simp only [sevenDays]; omega
    simp [get_user_from_token, decode_token, create_access_token, jwtDecode, ALGORITHM,
      hexp]

/-- Witness for C1 at a concrete user id, issuance time 1000, checked at
time 2000 (inside the window) and at time 700000 (after expiry at
605800). -/
theorem issued_token_valid_window_witness :
    get_user_from_token
      (create_access_token "123e4567-e89b-12d3-a456-426614174000" "a@x.com" "Ann" 1000)
      2000 =
      .ret (some { id := 0x123e4567e89b12d3a456426614174000, email := some "a@x.com" }) ∧
    get_user_from_token
      (create_access_token "123e4567-e89b-12d3-a456-426614174000" "a@x.com" "Ann" 1000)
      700000 = .ret none :=
  ⟨(issued_token_valid_window "123e4567-e89b-12d3-a456-426614174000" "a@x.com" "Ann"
      0x123e4567e89b12d3a456426614174000 1000 2000 (by decide)).1 (by decide) (by decide),
   (issued_token_valid_window "123e4567-e89b-12d3-a456-426614174000" "a@x.com" "Ann"
      0x123e4567e89b12d3a456426614174000 1000 700000 (by decide)).2 (by decide)⟩

/-- C2: `get_user_from_token` fails closed — it returns `None` and lets no
exception escape — in each of the four listed failure cases: a malformed
token string, a signature mismatch (token signed with a key other than the
configured secret), an expired `exp` claim, and a `sub` claim that does
not parse as a UUID. -/
theorem verify_fails_closed :
    (∀ (s : String) (now : Int), get_user_from_token (.malformed s) now = .ret none) ∧
    (∀ (alg : String) (claims : JwtClaims) (key : String) (now : Int),
      key ≠ BETTER_AUTH_SECRET →
      get_user_from_token (.signed alg claims key) now = .ret none) ∧
    (∀ (claims : JwtClaims) (x now : Int), claims.exp = some x → x ≤ now →
      get_user_from_token (.signed ALGORITHM claims BETTER_AUTH_SECRET) now = .ret none) ∧
    (∀ (claims : JwtClaims) (s : String) (now : Int),
      claims.sub = some s → uuidParse s = none →
      get_user_from_token (.signed ALGORITHM claims BETTER_AUTH_SECRET) now = .ret none) := by
  refine ⟨fun s now => rfl, fun alg claims key now hk => ?_, ?_, ?_⟩
  · by_cases halg : alg = ALGORITHM <;>
      simp [get_user_from_token, decode_token, jwtDecode, halg, hk]
  · intro claims x now hx hle
    simp [get_user_from_token, decode_token, jwtDecode, hx, hle]
  · intro claims s now hs hparse
    rcases claims with ⟨sub, email, name, exp, iat⟩
    simp only at hs
    subst hs
    rcases exp with _ | x
    · simp [get_user_from_token, decode_token, jwtDecode, hparse]
    · by_cases hle : x ≤ now <;>
        simp [get_user_from_token, decode_token, jwtDecode, hle, hparse]

/-- Witness for C2: one concrete token per failure case. -/
theorem verify_fails_closed_witness :
    get_user_from_token (.malformed "not.a.token") 0 = .ret none ∧
    get_user_from_token
      (.signed "HS256" ⟨some "123e4567-e89b-12d3-a456-426614174000", none, none, none, none⟩
        "other-secret") 0 = .ret none ∧
    get_user_from_token
      (.signed ALGORITHM ⟨some "123e4567-e89b-12d3-a456-426614174000", none, none, some 5, none⟩
        BETTER_AUTH_SECRET) 10 = .ret none ∧
    get_user_from_token
      (.signed ALGORITHM ⟨some "not-a-uuid", none, none, none, none⟩
        BETTER_AUTH_SECRET) 0 = .ret none :=
  ⟨verify_fails_closed.1 "not.a.token" 0,
   verify_fails_closed.2.1 "HS256" _ "other-secret" 0 (by decide),
   verify_fails_closed.2.2.1 _ 5 10 rfl (by decide),
   verify_fails_closed.2.2.2 _ "not-a-uuid" 0 rfl (by decide)⟩

/-- C7: `decode_token` passes the fixed one-element allow-list
`[ALGORITHM]` with `ALGORITHM = "HS256"` to `jwt.decode` — the algorithm
is never read from the token header or supplied by the caller — so every
token whose header declares any other algorithm is rejected, while a
well-formed HS256 token under the configured secret is accepted. -/
theorem algorithm_allowlist (alg : String) (claims : JwtClaims) (key : String) (now : Int) :
    (alg ≠ ALGORITHM → get_user_from_token (.signed alg claims key) now = .ret none) ∧
    (∀ (s : String) (uid : Nat), claims.sub = some s → uuidParse s = some uid →
      claims.exp = none →
      get_user_from_token (.signed ALGORITHM claims BETTER_AUTH_SECRET) now =
        .ret (some { id := uid, email := claims.email })) := by
  constructor
  · intro halg
    simp [get_user_from_token, decode_token, jwtDecode, halg]
  · intro s uid hs hparse hexp
    simp [get_user_from_token, decode_token, jwtDecode, hexp, hs, hparse]

/-- Witness for C7: a token whose header declares `"none"` is rejected
even under the configured secret; the same claims under `"HS256"` are
accepted. -/
theorem algorithm_allowlist_witness :
    get_user_from_token
      (.signed "none" ⟨some "123e4567-e89b-12d3-a456-426614174000", some "a@x.com", none, none, none⟩
        BETTER_AUTH_SECRET) 0 = .ret none ∧
    get_user_from_token
      (.signed ALGORITHM ⟨some "123e4567-e89b-12d3-a456-426614174000", some "a@x.com", none, none, none⟩
        BETTER_AUTH_SECRET) 0 =
      .ret (some { id := 0x123e4567e89b12d3a456426614174000, email := some "a@x.com" }) :=
  ⟨(algorithm_allowlist "none"
      ⟨some "123e4567-e89b-12d3-a456-426614174000", some "a@x.com", none, none, none⟩
      BETTER_AUTH_SECRET 0).1 (by decide),
   (algorithm_allowlist "HS256"
      ⟨some "123e4567-e89b-12d3-a456-426614174000", some "a@x.com", none, none, none⟩
      BETTER_AUTH_SECRET 0).2 "123e4567-e89b-12d3-a456-426614174000"
      0x123e4567e89b12d3a456426614174000 rfl (by decide) rfl⟩

/-- C10: a token correctly signed under the configured secret that carries
no `exp` claim is accepted at every time — `TokenPayload` makes `exp`
(and `email`) optional and `jwt.decode` checks expiry only when an `exp`
claim is present — so such a token never expires. -/
theorem token_without_exp_never_expires (s : String) (uid : Nat)
    (email name : Option String) (iat : Option Int) (now : Int)
    (hu : uuidParse s = some uid) :
    get_user_from_token
      (.signed "HS256" { sub := some s, email := email, name := name, exp := none, iat := iat }
        BETTER_AUTH_SECRET) now =
      .ret (some { id := uid, email := email }) := by
  simp [get_user_from_token, decode_token, jwtDecode, ALGORITHM, hu]

/-- Witness for C10: a signed token with no `exp` and no `email` claim is
accepted at the (arbitrarily late) time 32503680000. -/
theorem token_without_exp_never_expires_witness :
    get_user_from_token
      (.signed "HS256"
        { sub := some "123e4567-e89b-12d3-a456-426614174000", email := none, name := none,
          exp := none, iat := none }
        BETTER_AUTH_SECRET) 32503680000 =
      .ret (some { id := 0x123e4567e89b12d3a456426614174000, email := none }) :=
  token_without_exp_never_expires "123e4567-e89b-12d3-a456-426614174000"
    0x123e4567e89b12d3a456426614174000 none none none 32503680000 (by decide)

/-- The UTF-8 encoding of one character as byte values, written with
division and remainder so the byte arithmetic stays linear. -/
def encodeChar (c : Char) : List Nat :=
  if c.toNat < 128 then [c.toNat]
  else if c.toNat < 2048 then
    [192 + c.toNat / 64, 128 + c.toNat % 64]
  else if c.toNat < 65536 then
    [224 + c.toNat / 4096, 128 + c.toNat / 64 % 64, 128 + c.toNat % 64]
  else
    [240 + c.toNat / 262144, 128 + c.toNat / 4096 % 64, 128 + c.toNat / 64 % 64,
     128 + c.toNat % 64]

/-- The UTF-8 encoding of a character sequence. -/
def utf8Encode : List Char → List Nat
  | [] => []
  | c :: cs => encodeChar c ++ utf8Encode cs

/-- The UTF-8 bytes of a string, as Python `s.encode("utf-8")` produces
them. -/
def utf8Bytes (s : String) : List Nat :=
  utf8Encode s.data

/-- The part of a password that bcrypt actually keys on: the algorithm
silently truncates the password to its first 72 bytes (passlib's bcrypt
handler keeps that behaviour; its truncation error is off by default). -/
def bcryptKey (password : String) : List Nat :=
  (utf8Bytes password).take 72

/-- A passlib bcrypt digest, at the granularity the application observes:
a well-formed digest is determined by its embedded salt and the at most
72-byte key actually hashed (ideal-hash model — distinct salts or keys
give distinct digests); any string that passlib cannot identify as a
digest of a configured scheme is `unidentified`. -/
inductive BcryptHash where
  | bcrypt (salt : Nat) (key : List Nat)
  | unidentified (s : String)
deriving DecidableEq, Repr

/-- `hash_password` from `src/api/auth.py` (`pwd_context.hash`): hashes
the first 72 bytes of the password under a fresh random salt; the salt is
an explicit parameter modelling that randomness. -/
def hash_password (password : String) (salt : Nat) : BcryptHash :=
  .bcrypt salt (bcryptKey password)

/-- Outcome of `pwd_context.verify`: a boolean, or an exception escaping
to the caller. -/
inductive VerifyOutcome where
  | ok (b : Bool)
  | raised
deriving DecidableEq, Repr

/-- `verify_password` from `src/api/auth.py` (`pwd_context.verify`):
recomputes under the digest's embedded salt from the first 72 bytes of
the plaintext and compares.  passlib's `CryptContext.verify` raises
`ValueError` when the hash string cannot be identified as any configured
scheme; the code wraps it in no `try`/`except`, so that error reaches the
caller. -/
def verify_password (plain_password : String) (hashed_password : BcryptHash) :
    VerifyOutcome :=
  match hashed_password with
  | .bcrypt _ key => .ok (bcryptKey plain_password == key)
  | .unidentified _ => .raised

/-- A character encodes to at least one byte. -/
theorem encodeChar_ne_nil (c : Char) : encodeChar c ≠ [] := by
  unfold encodeChar
  split_ifs <;> simp

/-- Characters are determined by their code points. -/
theorem char_toNat_inj (c1 c2 : Char) (h : c1.toNat = c2.toNat) : c1 = c2 := by
  rw [← Char.ofNat_toNat c1, ← Char.ofNat_toNat c2, h]

/-- Two UTF-8 character encodings followed by arbitrary byte tails agree
only if both the characters and the tails agree: the first byte of an
encoding determines its length (the four length classes have disjoint
first-byte ranges), and the bytes of one class determine the code
point. -/
theorem encodeChar_append_inj (c1 c2 : Char) (r1 r2 : List Nat)
    (h : encodeChar c1 ++ r1 = encodeChar c2 ++ r2) : c1 = c2 ∧ r1 = r2 := by
  unfold encodeChar at h
  split_ifs at h <;>
    simp only [List.cons_append, List.nil_append, List.cons.injEq] at h <;>
    first
      | exact ⟨char_toNat_inj c1 c2 (by omega), h.2⟩
      | exact ⟨char_toNat_inj c1 c2 (by omega), h.2.2⟩
      | exact ⟨char_toNat_inj c1 c2 (by omega), h.2.2.2⟩
      | exact ⟨char_toNat_inj c1 c2 (by omega), h.2.2.2.2⟩
      | exact absurd h.1 (by omega)

/-- UTF-8 encoding is injective on character sequences. -/
theorem utf8Encode_injective (l1 : List Char) :
    ∀ l2, utf8Encode l1 = utf8Encode l2 → l1 = l2 := by
  induction l1 with
  | nil =>
    intro l2 h
    cases l2 with
    | nil => rfl
    | cons c cs =>
      exfalso
      simp only [utf8Encode] at h
      exact encodeChar_ne_nil c (List.append_eq_nil.mp h.symm).1
  | cons c1 t1 ih =>
    intro l2 h
    cases l2 with
    | nil =>
      exfalso
      simp only [utf8Encode] at h
      exact encodeChar_ne_nil c1 (List.append_eq_nil.mp h).1
    | cons c2 t2 =>
      simp only [utf8Encode] at h
      obtain ⟨hc, hr⟩ := encodeChar_append_inj c1 c2 _ _ h
      rw [hc, ih t2 hr]

/-- Strings with the same UTF-8 bytes are equal. -/
theorem utf8Bytes_injective (s t : String) (h : utf8Bytes s = utf8Bytes t) : s = t := by
  cases s with | mk d1 =>
  cases t with | mk d2 =>
  exact congrArg String.mk (utf8Encode_injective d1 d2 h)

/-- C8 counterexample: two distinct 73-byte passwords that agree on their
first 72 bytes verify against each other's digest — bcrypt's silent
72-byte truncation makes `verify(p1, hash(p2))` true with `p1 ≠ p2`,
refuting the claimed iff (the application caps no password length, so
such inputs reach the hasher). -/
theorem password_hash_verify_counterexample :
    verify_password
      "aaaaaaaaaaaaaaaaaaaaaaaaaaaaaaaaaaaaaaaaaaaaaaaaaaaaaaaaaaaaaaaaaaaaaaaax"
      (hash_password
        "aaaaaaaaaaaaaaaaaaaaaaaaaaaaaaaaaaaaaaaaaaaaaaaaaaaaaaaaaaaaaaaaaaaaaaaay" 37) =
      .ok true ∧
    "aaaaaaaaaaaaaaaaaaaaaaaaaaaaaaaaaaaaaaaaaaaaaaaaaaaaaaaaaaaaaaaaaaaaaaaax" ≠
      "aaaaaaaaaaaaaaaaaaaaaaaaaaaaaaaaaaaaaaaaaaaaaaaaaaaaaaaaaaaaaaaaaaaaaaaay" := by
  constructor
  · decide
  · decide

/-- C8 amended: `verify_password p1 (hash_password p2 salt)` is true iff
`p1` and `p2` agree on their first 72 UTF-8 bytes (bcrypt keys on exactly
that prefix); in particular, for passwords of at most 72 UTF-8 bytes it
is true iff `p1 = p2`.  Two `hash_password` calls on the same input under
distinct fresh salts still yield distinct digests. -/
theorem password_hash_verify_truncated (p1 p2 p : String) (salt s1 s2 : Nat) :
    (verify_password p1 (hash_password p2 salt) = .ok true ↔ bcryptKey p1 = bcryptKey p2) ∧
    ((utf8Bytes p1).length ≤ 72 → (utf8Bytes p2).length ≤ 72 →
      (verify_password p1 (hash_password p2 salt) = .ok true ↔ p1 = p2)) ∧
    (s1 ≠ s2 → hash_password p s1 ≠ hash_password p s2) := by
  have hiff : verify_password p1 (hash_password p2 salt) = .ok true ↔
      bcryptKey p1 = bcryptKey p2 := by
    simp [verify_password, hash_password]
  refine ⟨hiff, ?_, ?_⟩
  · intro h1 h2
    rw [hiff]
    constructor
    · intro hk
      refine utf8Bytes_injective p1 p2 ?_
      rw [← List.take_of_length_le h1, ← List.take_of_length_le h2]
      exact hk
    · intro he
      rw [he]
  · intro hne hcontra
    exact hne (by simpa [hash_password] using hcontra)

/-- Witness for C8 (amended) at concrete short passwords and salts. -/
theorem password_hash_verify_truncated_witness :
    verify_password "hunter2hunter2" (hash_password "hunter2hunter2" 37) = .ok true ∧
    verify_password "wrongpass" (hash_password "hunter2hunter2" 37) ≠ .ok true ∧
    hash_password "hunter2hunter2" 1 ≠ hash_password "hunter2hunter2" 2 :=
  ⟨((password_hash_verify_truncated "hunter2hunter2" "hunter2hunter2" "x" 37 0 0).2.1
      (by decide) (by decide)).mpr rfl,
   fun h => by
     have := ((password_hash_verify_truncated "wrongpass" "hunter2hunter2" "x" 37 0 0).2.1
       (by decide) (by decide)).mp h
     exact absurd this (by decide),
   (password_hash_verify_truncated "x" "x" "hunter2hunter2" 0 1 2).2.2 (by decide)⟩

/-- C9 counterexample: at the concrete malformed digest `"not-a-digest"`,
`verify_password` raises (passlib `ValueError`: hash could not be
identified) instead of returning false — refuting the claim that
verification returns false and never raises on malformed digests. -/
theorem verify_malformed_digest_raises :
    verify_password "password123" (.unidentified "not-a-digest") = .raised ∧
    verify_password "password123" (.unidentified "not-a-digest") ≠ .ok false :=
  ⟨rfl, by decide⟩

/-- C9 amended: for every plaintext and every malformed (non-digest)
second argument, `verify_password` raises a `ValueError` to its caller —
passlib's `CryptContext.verify` raises on an unidentifiable hash and
`verify_password` does not catch it — rather than returning false. -/
theorem verify_malformed_digest_raises_always (p s : String) :
    verify_password p (.unidentified s) = .raised := rfl

/-- The `detail` dict of an `HTTPException` raised by the endpoints. -/
structure HTTPDetail where
  code : String
  message : String
deriving DecidableEq, Repr

/-- An `HTTPException` as raised by the endpoints: a status code and a
`detail` dict `{code, message}`. -/
structure HTTPErr where
  status : Nat
  detail : HTTPDetail
deriving DecidableEq, Repr

/-- A record stored in the in-memory `users_db` dict of
`src/api/auth.py`; `created_at` is the creation timestamp. -/
structure UserRecord where
  id : String
  email : String
  name : String
  hashed_password : BcryptHash
  created_at : Int
deriving DecidableEq, Repr

/-- The in-memory `users_db` dict, keyed by lowercased email. -/
abbrev UsersDb := List (String × UserRecord)

/-- Python dict lookup `users_db.get(k)` / `k in users_db`. -/
def dbGet (db : UsersDb) (k : String) : Option UserRecord :=
  match db.find? (fun p => p.1 == k) with
  | some p => some p.2
  | none => none

/-- Python dict assignment `users_db[k] = v`. -/
def dbSet (db : UsersDb) (k : String) (v : UserRecord) : UsersDb :=
  (k, v) :: db.filter (fun p => !(p.1 == k))

/-- Lowercasing of one character, as Python `str.lower` acts on the
ASCII range (the range relevant to the e-mail addresses modelled here). -/
def lowerChar (c : Char) : Char :=
  if 'A' ≤ c && c ≤ 'Z' then Char.ofNat (c.toNat + 32) else c

/-- Python `s.lower()`. -/
def pyLower (s : String) : String :=
  ⟨s.data.map lowerChar⟩

/-- `UserCreate` from `src/models/user.py` (validation of the email
shape, password length and name length happens before the endpoint body
and is outside this model). -/
structure UserCreate where
  email : String
  password : String
  name : String
deriving DecidableEq, Repr

/-- `UserLogin` from `src/models/user.py`. -/
structure UserLogin where
  email : String
  password : String
deriving DecidableEq, Repr

/-- `UserResponse` from `src/models/user.py`. -/
structure UserResponse where
  id : String
  email : String
  name : String
deriving DecidableEq, Repr

/-- `TokenResponse` from `src/models/user.py`. -/
structure TokenResponse where
  access_token : Jwt
  token_type : String
  user : UserResponse
deriving DecidableEq, Repr

/-- Result of the `signup` endpoint body. -/
inductive SignupResult where
  | ok (message : String) (user_id : String)
  | error (e : HTTPErr)
deriving DecidableEq, Repr

/-- The `HTTPException` raised by `signup` on an already-registered
email. -/
def duplicateEmailErr : HTTPErr :=
  { status := 400, detail := { code := "DUPLICATE_EMAIL", message := "Email already registered" } }

/-- `signup` from `src/api/auth.py`.  The fresh `uuid4` identifier, the
bcrypt salt and the clock are nondeterministic inputs passed explicitly.
Returns the endpoint result, the updated `users_db`, and the number of
`hash_password` calls the request performed. -/
def signup (user_data : UserCreate) (db : UsersDb) (fresh_id : String)
    (salt : Nat) (now : Int) : SignupResult × UsersDb × Nat :=
  let email_lower := pyLower user_data.email
  match dbGet db email_lower with
  | some _ => (.error duplicateEmailErr, db, 0)
  | none =>
    let record : UserRecord :=
      { id := fresh_id, email := email_lower, name := user_data.name,
        hashed_password := hash_password user_data.password salt, created_at := now }
    (.ok "User created successfully" fresh_id, dbSet db email_lower record, 1)

/-- Result of the `signin` endpoint body. -/
inductive SigninResult where
  | ok (t : TokenResponse)
  | error (e : HTTPErr)
  | raised
deriving DecidableEq, Repr

/-- The `HTTPException` raised on both `signin` failure paths — the two
paths build byte-for-byte identical status and detail values. -/
def invalidCredentialsErr : HTTPErr :=
  { status := 401, detail := { code := "INVALID_CREDENTIALS", message := "Invalid email or password" } }

/-- `signin` from `src/api/auth.py`. -/
def signin (credentials : UserLogin) (db : UsersDb) (now : Int) : SigninResult :=
  let email_lower := pyLower credentials.email
  match dbGet db email_lower with
  | none => .error invalidCredentialsErr
  | some user =>
    match verify_password credentials.password user.hashed_password with
    | .raised => .raised
    | .ok false => .error invalidCredentialsErr
    | .ok true =>
      .ok { access_token := create_access_token user.id user.email user.name now,
            token_type := "bearer",
            user := { id := user.id, email := user.email, name := user.name } }

/-- C4: login with an email that has no credential record and login with
an existing email but a wrong password yield the identical
`InvalidCredentials` failure — the same 401 status and the same detail
dict, with no distinguishing field. -/
theorem login_failures_indistinguishable (c1 c2 : UserLogin) (db : UsersDb)
    (user : UserRecord) (salt : Nat) (key : List Nat) (now1 now2 : Int)
    (h1 : dbGet db (pyLower c1.email) = none)
    (h2 : dbGet db (pyLower c2.email) = some user)
    (hpw : user.hashed_password = .bcrypt salt key)
    (hwrong : bcryptKey c2.password ≠ key) :
    signin c1 db now1 = .error invalidCredentialsErr ∧
    signin c2 db now2 = .error invalidCredentialsErr ∧
    signin c1 db now1 = signin c2 db now2 := by
  have e1 : signin c1 db now1 = .error invalidCredentialsErr := by
    simp [signin, h1]
  have hne : (bcryptKey c2.password == key) = false := by
    simp [hwrong]
  have e2 : signin c2 db now2 = .error invalidCredentialsErr := by
    simp [signin, h2, hpw, verify_password, hne]
  exact ⟨e1, e2, e1.trans e2.symm⟩

/-- Witness for C4: a store holding `ann@x.com`; an unknown email and a
wrong password for the known email produce the same failure value. -/
theorem login_failures_indistinguishable_witness :
    signin ⟨"bob@x.com", "whatever"⟩
      [("ann@x.com", ⟨"u1", "ann@x.com", "Ann", .bcrypt 9 (bcryptKey "correct-horse"), 0⟩)] 5 =
      .error invalidCredentialsErr ∧
    signin ⟨"Ann@x.com", "wrong-horse"⟩
      [("ann@x.com", ⟨"u1", "ann@x.com", "Ann", .bcrypt 9 (bcryptKey "correct-horse"), 0⟩)] 6 =
      .error invalidCredentialsErr ∧
    signin ⟨"bob@x.com", "whatever"⟩
      [("ann@x.com", ⟨"u1", "ann@x.com", "Ann", .bcrypt 9 (bcryptKey "correct-horse"), 0⟩)] 5 =
    signin ⟨"Ann@x.com", "wrong-horse"⟩
      [("ann@x.com", ⟨"u1", "ann@x.com", "Ann", .bcrypt 9 (bcryptKey "correct-horse"), 0⟩)] 6 :=
  login_failures_indistinguishable ⟨"bob@x.com", "whatever"⟩ ⟨"Ann@x.com", "wrong-horse"⟩
    [("ann@x.com", ⟨"u1", "ann@x.com", "Ann", .bcrypt 9 (bcryptKey "correct-horse"), 0⟩)]
    ⟨"u1", "ann@x.com", "Ann", .bcrypt 9 (bcryptKey "correct-horse"), 0⟩ 9 (bcryptKey "correct-horse") 5 6
    (by decide) (by decide) rfl (by decide)

/-- Looking up the key just written by a dict assignment. -/
theorem dbGet_dbSet_self (db : UsersDb) (k : String) (v : UserRecord) :
    dbGet (dbSet db k v) k = some v := by
  simp [dbGet, dbSet]

/-- `signup` against a store already holding the normalized email. -/
theorem signup_duplicate (d : UserCreate) (db : UsersDb) (u : UserRecord)
    (i : String) (s : Nat) (t : Int) (h : dbGet db (pyLower d.email) = some u) :
    signup d db i s t = (.error duplicateEmailErr, db, 0) := by
  simp [signup, h]

/-- `signup` against a store not holding the normalized email. -/
theorem signup_fresh (d : UserCreate) (db : UsersDb)
    (i : String) (s : Nat) (t : Int) (h : dbGet db (pyLower d.email) = none) :
    signup d db i s t =
      (.ok "User created successfully" i,
       dbSet db (pyLower d.email)
         { id := i, email := pyLower d.email, name := d.name,
           hashed_password := hash_password d.password s, created_at := t },
       1) := by
  simp [signup, h]

/-- C5: registering two emails that normalize to the same lowercase
string, the first against a store not containing that email: the first
succeeds (performing one password hash), the second returns the
`DuplicateEmail` failure, performs no password hashing, and leaves the
store unchanged. -/
theorem duplicate_registration (d1 d2 : UserCreate) (db : UsersDb)
    (id1 id2 : String) (s1 s2 : Nat) (t1 t2 : Int)
    (hsame : pyLower d1.email = pyLower d2.email)
    (hfresh : dbGet db (pyLower d1.email) = none) :
    (signup d1 db id1 s1 t1).1 = .ok "User created successfully" id1 ∧
    (signup d1 db id1 s1 t1).2.2 = 1 ∧
    (signup d2 (signup d1 db id1 s1 t1).2.1 id2 s2 t2).1 = .error duplicateEmailErr ∧
    (signup d2 (signup d1 db id1 s1 t1).2.1 id2 s2 t2).2.1 = (signup d1 db id1 s1 t1).2.1 ∧
    (signup d2 (signup d1 db id1 s1 t1).2.1 id2 s2 t2).2.2 = 0 := by
  have h1 := signup_fresh d1 db id1 s1 t1 hfresh
  have hget2 : dbGet (signup d1 db id1 s1 t1).2.1 (pyLower d2.email) =
      some { id := id1, email := pyLower d1.email, name := d1.name,
             hashed_password := hash_password d1.password s1, created_at := t1 } := by
    rw [h1, ← hsame]
    exact dbGet_dbSet_self _ _ _
  have h2 := signup_duplicate d2 (signup d1 db id1 s1 t1).2.1 _ id2 s2 t2 hget2
  rw [h2]
  simp [h1]

/-- Witness for C5: `A@x.com` then `a@x.com` against an empty store. -/
theorem duplicate_registration_witness :
    (signup ⟨"A@x.com", "password1", "Ann"⟩ [] "u1" 3 10).1 =
      .ok "User created successfully" "u1" ∧
    (signup ⟨"A@x.com", "password1", "Ann"⟩ [] "u1" 3 10).2.2 = 1 ∧
    (signup ⟨"a@x.com", "password2", "Bob"⟩
      (signup ⟨"A@x.com", "password1", "Ann"⟩ [] "u1" 3 10).2.1 "u2" 4 11).1 =
      .error duplicateEmailErr ∧
    (signup ⟨"a@x.com", "password2", "Bob"⟩
      (signup ⟨"A@x.com", "password1", "Ann"⟩ [] "u1" 3 10).2.1 "u2" 4 11).2.1 =
      (signup ⟨"A@x.com", "password1", "Ann"⟩ [] "u1" 3 10).2.1 ∧
    (signup ⟨"a@x.com", "password2", "Bob"⟩
      (signup ⟨"A@x.com", "password1", "Ann"⟩ [] "u1" 3 10).2.1 "u2" 4 11).2.2 = 0 :=
  duplicate_registration ⟨"A@x.com", "password1", "Ann"⟩ ⟨"a@x.com", "password2", "Bob"⟩
    [] "u1" "u2" 3 4 10 11 (by decide) rfl

/-- The `HTTPException` raised by `verify_user_access`
(`src/api/deps.py`). -/
def resourceNotFoundErr : HTTPErr :=
  { status := 404, detail := { code := "NOT_FOUND", message := "Resource not found" } }

/-- `verify_user_access` from `src/api/deps.py`: raises a 404 `NOT_FOUND`
exception whenever the URL user id differs from the authenticated user's
id, and returns (`None`) otherwise. -/
def verify_user_access (url_user_id : Nat) (current_user : AuthenticatedUser) :
    Except HTTPErr Unit :=
  if url_user_id ≠ current_user.id then .error resourceNotFoundErr
  else .ok ()

/-- Result of resolving the `get_current_user` dependency. -/
inductive DepResult where
  | ok (u : AuthenticatedUser)
  | httpError (e : HTTPErr)
  | raised
deriving DecidableEq, Repr

/-- `get_current_user` from `src/core/middleware.py`: 401 when the bearer
credentials are missing or the token does not verify. -/
def get_current_user (credentials : Option Jwt) (now : Int) : DepResult :=
  match credentials with
  | none =>
    .httpError { status := 401,
                 detail := { code := "AUTHENTICATION_REQUIRED", message := "Authentication required" } }
  | some token =>
    match get_user_from_token token now with
    | .raised => .raised
    | .ret none =>
      .httpError { status := 401,
                   detail := { code := "INVALID_TOKEN", message := "Invalid or expired token" } }
    | .ret (some u) => .ok u

/-- A row of the `tasks` table (`src/models/task.py`), restricted to the
fields the endpoints consult; UUID columns are modelled by their integer
values. -/
structure TaskRec where
  id : Nat
  user_id : Nat
  title : String
  description : Option String
  is_completed : Bool
deriving DecidableEq, Repr

/-- The task store (the `tasks` table). -/
abbrev TaskStore := List TaskRec

/-- `task_service.get_task`: `SELECT ... WHERE id = task_id AND
user_id = user_id`. -/
def task_service_get_task (store : TaskStore) (task_id user_id : Nat) : Option TaskRec :=
  store.find? (fun t => t.id == task_id && t.user_id == user_id)

/-- `task_service.get_tasks` with the optional status filter (the
`ORDER BY created_at DESC` clause is not modelled; no claim concerns
ordering). -/
def task_service_get_tasks (store : TaskStore) (user_id : Nat)
    (status_filter : Option String) : List TaskRec :=
  let mine := store.filter (fun t => t.user_id == user_id)
  match status_filter with
  | some "pending" => mine.filter (fun t => !t.is_completed)
  | some "completed" => mine.filter (fun t => t.is_completed)
  | _ => mine

/-- `TaskCreate` from `src/models/task.py`. -/
structure TaskCreate where
  title : String
  description : Option String
deriving DecidableEq, Repr

/-- `TaskUpdate` from `src/models/task.py`. -/
structure TaskUpdate where
  title : Option String
  description : Option String
deriving DecidableEq, Repr

/-- The task row built by `task_service.create_task`:
`title.strip()`, and `description.strip() if description else None`
(a `None` or empty description stays `None`). -/
def build_new_task (fresh_id user_id : Nat) (task_data : TaskCreate) : TaskRec :=
  { id := fresh_id, user_id := user_id, title := task_data.title.trim,
    description := match task_data.description with
      | none => none
      | some s => if s = "" then none else some s.trim,
    is_completed := false }

/-- The field updates applied by `task_service.update_task`: each field
only when supplied; `description.strip() or None` turns a
whitespace-only description into `None`. -/
def apply_task_update (task : TaskRec) (task_data : TaskUpdate) : TaskRec :=
  let t1 := match task_data.title with
    | some s => { task with title := s.trim }
    | none => task
  match task_data.description with
  | some s => { t1 with description := if s.trim = "" then none else some s.trim }
  | none => t1

/-- The observable actions of a protected task request: the ownership
check (`verify_user_access`, with its outcome) and the task-store
operations performed through `task_service`. -/
inductive Event where
  | ownershipCheck (passed : Bool)
  | storeRead
  | storeWrite
  | storeDelete
deriving DecidableEq, Repr

/-- Whether an event is a task-store operation. -/
def isStoreOp : Event → Bool
  | .ownershipCheck _ => false
  | .storeRead => true
  | .storeWrite => true
  | .storeDelete => true

/-- The result of a task endpoint. -/
inductive TaskResult where
  | okTask (t : TaskRec)
  | okList (ts : List TaskRec)
  | noContent
  | httpError (e : HTTPErr)
  | raised
deriving DecidableEq, Repr

/-- The `HTTPException` raised by the single-task endpoints when the
requested task does not exist (or belongs to another user). -/
def taskNotFoundErr : HTTPErr :=
  { status := 404, detail := { code := "NOT_FOUND", message := "Task not found" } }

/-- `GET /{user_id}/tasks` (`src/api/tasks.py`, `get_tasks`), instrumented
with the sequence of ownership-check and task-store events the request
performs. -/
def get_tasks_endpoint (user_id : Nat) (credentials : Option Jwt) (now : Int)
    (store : TaskStore) (status_filter : Option String) : List Event × TaskResult :=
  match get_current_user credentials now with
  | .raised => ([], .raised)
  | .httpError e => ([], .httpError e)
  | .ok current_user =>
    match verify_user_access user_id current_user with
    | .error e => ([.ownershipCheck false], .httpError e)
    | .ok _ =>
      ([.ownershipCheck true, .storeRead],
       .okList (task_service_get_tasks store user_id status_filter))

/-- `POST /{user_id}/tasks` (`src/api/tasks.py`, `create_task`),
instrumented with its event sequence; `fresh_id` is the `uuid4` primary
key of the new row. -/
def create_task_endpoint (user_id : Nat) (task_data : TaskCreate)
    (credentials : Option Jwt) (now : Int) (fresh_id : Nat) :
    List Event × TaskResult :=
  match get_current_user credentials now with
  | .raised => ([], .raised)
  | .httpError e => ([], .httpError e)
  | .ok current_user =>
    match verify_user_access user_id current_user with
    | .error e => ([.ownershipCheck false], .httpError e)
    | .ok _ =>
      ([.ownershipCheck true, .storeWrite],
       .okTask (build_new_task fresh_id user_id task_data))

/-- `GET /{user_id}/tasks/{task_id}` (`src/api/tasks.py`, `get_task`),
instrumented with its event sequence. -/
def get_task_endpoint (user_id task_id : Nat) (credentials : Option Jwt)
    (now : Int) (store : TaskStore) : List Event × TaskResult :=
  match get_current_user credentials now with
  | .raised => ([], .raised)
  | .httpError e => ([], .httpError e)
  | .ok current_user =>
    match verify_user_access user_id current_user with
    | .error e => ([.ownershipCheck false], .httpError e)
    | .ok _ =>
      match task_service_get_task store task_id user_id with
      | none => ([.ownershipCheck true, .storeRead], .httpError taskNotFoundErr)
      | some task => ([.ownershipCheck true, .storeRead], .okTask task)

/-- `PUT /{user_id}/tasks/{task_id}` (`src/api/tasks.py`, `update_task`),
instrumented with its event sequence. -/
def update_task_endpoint (user_id task_id : Nat) (task_data : TaskUpdate)
    (credentials : Option Jwt) (now : Int) (store : TaskStore) :
    List Event × TaskResult :=
  match get_current_user credentials now with
  | .raised => ([], .raised)
  | .httpError e => ([], .httpError e)
  | .ok current_user =>
    match verify_user_access user_id current_user with
    | .error e => ([.ownershipCheck false], .httpError e)
    | .ok _ =>
      match task_service_get_task store task_id user_id with
      | none => ([.ownershipCheck true, .storeRead], .httpError taskNotFoundErr)
      | some task =>
        ([.ownershipCheck true, .storeRead, .storeWrite],
         .okTask (apply_task_update task task_data))

/-- `DELETE /{user_id}/tasks/{task_id}` (`src/api/tasks.py`,
`delete_task`), instrumented with its event sequence. -/
def delete_task_endpoint (user_id task_id : Nat) (credentials : Option Jwt)
    (now : Int) (store : TaskStore) : List Event × TaskResult :=
  match get_current_user credentials now with
  | .raised => ([], .raised)
  | .httpError e => ([], .httpError e)
  | .ok current_user =>
    match verify_user_access user_id current_user with
    | .error e => ([.ownershipCheck false], .httpError e)
    | .ok _ =>
      match task_service_get_task store task_id user_id with
      | none => ([.ownershipCheck true, .storeRead], .httpError taskNotFoundErr)
      | some _ => ([.ownershipCheck true, .storeRead, .storeDelete], .noContent)

/-- `PATCH /{user_id}/tasks/{task_id}/complete` (`src/api/tasks.py`,
`toggle_task_completion`), instrumented with its event sequence. -/
def toggle_task_endpoint (user_id task_id : Nat) (credentials : Option Jwt)
    (now : Int) (store : TaskStore) : List Event × TaskResult :=
  match get_current_user credentials now with
  | .raised => ([], .raised)
  | .httpError e => ([], .httpError e)
  | .ok current_user =>
    match verify_user_access user_id current_user with
    | .error e => ([.ownershipCheck false], .httpError e)
    | .ok _ =>
      match task_service_get_task store task_id user_id with
      | none => ([.ownershipCheck true, .storeRead], .httpError taskNotFoundErr)
      | some task =>
        ([.ownershipCheck true, .storeRead, .storeWrite],
         .okTask { task with is_completed := !task.is_completed })

/-- `guardedFrom checked evs` holds when every store operation in `evs`
comes after some passed ownership check; `checked` records whether one
has already passed. -/
def guardedFrom (checked : Bool) : List Event → Bool
  | [] => true
  | .ownershipCheck b :: rest => guardedFrom (checked || b) rest
  | .storeRead :: rest => checked && guardedFrom checked rest
  | .storeWrite :: rest => checked && guardedFrom checked rest
  | .storeDelete :: rest => checked && guardedFrom checked rest

/-- Once an ownership check has passed, any later event sequence is
guarded. -/
theorem guardedFrom_true (evs : List Event) : guardedFrom true evs = true := by
  induction evs with
  | nil => rfl
  | cons e rest ih => cases e <;> simp [guardedFrom, ih]

/-- C3: `verify_user_access a u` allows iff `a = u.id`; and a denial is
surfaced to the caller exactly like a "task does not exist" result — on a
denied `get_task` request the response carries the same 404 status and
the same `NOT_FOUND` code as when the requested task is absent — never a
distinguishable forbidden result. -/
theorem ownership_check_non_enumerating (a b : Nat) (em : Option String)
    (creds : Option Jwt) (now : Int) (store : TaskStore) (task_id : Nat) :
    (verify_user_access a { id := b, email := em } = .ok () ↔ a = b) ∧
    (get_current_user creds now = .ok { id := b, email := em } → a ≠ b →
      (get_task_endpoint a task_id creds now store).2 = .httpError resourceNotFoundErr) ∧
    (get_current_user creds now = .ok { id := a, email := em } →
      task_service_get_task store task_id a = none →
      (get_task_endpoint a task_id creds now store).2 = .httpError taskNotFoundErr) ∧
    resourceNotFoundErr.status = taskNotFoundErr.status ∧
    resourceNotFoundErr.detail.code = taskNotFoundErr.detail.code := by
  refine ⟨?_, ?_, ?_, rfl, rfl⟩
  · by_cases h : a = b <;> simp [verify_user_access, h]
  · intro hcu hne
    simp [get_task_endpoint, hcu, verify_user_access, hne]
  · intro hcu hnone
    simp [get_task_endpoint, hcu, verify_user_access, hnone]

/-- Witness for C3: with a valid token for one user, requesting another
user's task list entry is answered exactly like requesting one's own
missing task. -/
theorem ownership_check_non_enumerating_witness :
    (get_task_endpoint 5 1
      (some (create_access_token "123e4567-e89b-12d3-a456-426614174000" "a@x.com" "Ann" 0))
      1 []).2 = .httpError resourceNotFoundErr ∧
    (get_task_endpoint 0x123e4567e89b12d3a456426614174000 1
      (some (create_access_token "123e4567-e89b-12d3-a456-426614174000" "a@x.com" "Ann" 0))
      1 []).2 = .httpError taskNotFoundErr ∧
    resourceNotFoundErr.status = taskNotFoundErr.status ∧
    resourceNotFoundErr.detail.code = taskNotFoundErr.detail.code :=
  ⟨(ownership_check_non_enumerating 5 0x123e4567e89b12d3a456426614174000 (some "a@x.com")
      (some (create_access_token "123e4567-e89b-12d3-a456-426614174000" "a@x.com" "Ann" 0))
      1 [] 1).2.1 (by decide) (by decide),
   (ownership_check_non_enumerating 0x123e4567e89b12d3a456426614174000
      0x123e4567e89b12d3a456426614174000 (some "a@x.com")
      (some (create_access_token "123e4567-e89b-12d3-a456-426614174000" "a@x.com" "Ann" 0))
      1 [] 1).2.2.1 (by decide) rfl,
   rfl, rfl⟩

/-- C6: in every protected task request, every task-store operation comes
after a passed ownership check of the requested owner id against the
identity extracted from the request's token; and a request whose token
identity does not match the requested owner id performs no task-store
operation at all. -/
theorem task_ops_need_ownership_check (user_id task_id fresh_id : Nat)
    (credentials : Option Jwt) (now : Int) (store : TaskStore)
    (status_filter : Option String) (tc : TaskCreate) (tu : TaskUpdate) :
    (guardedFrom false (get_tasks_endpoint user_id credentials now store status_filter).1 = true ∧
     guardedFrom false (create_task_endpoint user_id tc credentials now fresh_id).1 = true ∧
     guardedFrom false (get_task_endpoint user_id task_id credentials now store).1 = true ∧
     guardedFrom false (update_task_endpoint user_id task_id tu credentials now store).1 = true ∧
     guardedFrom false (delete_task_endpoint user_id task_id credentials now store).1 = true ∧
     guardedFrom false (toggle_task_endpoint user_id task_id credentials now store).1 = true) ∧
    (∀ u : AuthenticatedUser, get_current_user credentials now = .ok u → user_id ≠ u.id →
      (get_tasks_endpoint user_id credentials now store status_filter).1.filter isStoreOp = [] ∧
      (create_task_endpoint user_id tc credentials now fresh_id).1.filter isStoreOp = [] ∧
      (get_task_endpoint user_id task_id credentials now store).1.filter isStoreOp = [] ∧
      (update_task_endpoint user_id task_id tu credentials now store).1.filter isStoreOp = [] ∧
      (delete_task_endpoint user_id task_id credentials now store).1.filter isStoreOp = [] ∧
      (toggle_task_endpoint user_id task_id credentials now store).1.filter isStoreOp = []) := by
  constructor
  · refine ⟨?_, ?_, ?_, ?_, ?_, ?_⟩ <;>
    · cases hcu : get_current_user credentials now with
      | ok u =>
        by_cases h : user_id = u.id
        · cases hf : task_service_get_task store task_id u.id <;>
            simp [get_tasks_endpoint, create_task_endpoint, get_task_endpoint,
              update_task_endpoint, delete_task_endpoint, toggle_task_endpoint,
              hcu, verify_user_access, h, hf, guardedFrom]
        · simp [get_tasks_endpoint, create_task_endpoint, get_task_endpoint,
            update_task_endpoint, delete_task_endpoint, toggle_task_endpoint,
            hcu, verify_user_access, h, guardedFrom]
      | httpError e =>
        simp [get_tasks_endpoint, create_task_endpoint, get_task_endpoint,
          update_task_endpoint, delete_task_endpoint, toggle_task_endpoint, hcu, guardedFrom]
      | raised =>
        simp [get_tasks_endpoint, create_task_endpoint, get_task_endpoint,
          update_task_endpoint, delete_task_endpoint, toggle_task_endpoint, hcu, guardedFrom]
  · intro u hcu hne
    refine ⟨?_, ?_, ?_, ?_, ?_, ?_⟩ <;>
      simp [get_tasks_endpoint, create_task_endpoint, get_task_endpoint,
        update_task_endpoint, delete_task_endpoint, toggle_task_endpoint,
        hcu, verify_user_access, hne, isStoreOp]

/-- Witness for C6 on the delete endpoint: a request under a valid token
for a different owner id performs no store operation, and its trace is
guarded. -/
theorem task_ops_need_ownership_check_witness :
    guardedFrom false
      (delete_task_endpoint 5 1
        (some (create_access_token "123e4567-e89b-12d3-a456-426614174000" "a@x.com" "Ann" 0))
        1 []).1 = true ∧
    (delete_task_endpoint 5 1
      (some (create_access_token "123e4567-e89b-12d3-a456-426614174000" "a@x.com" "Ann" 0))
      1 []).1.filter isStoreOp = [] := by
  have h := task_ops_need_ownership_check 5 1 2
    (some (create_access_token "123e4567-e89b-12d3-a456-426614174000" "a@x.com" "Ann" 0))
    1 [] none ⟨"t", none⟩ ⟨none, none⟩
  exact ⟨h.1.2.2.2.2.1,
    (h.2 { id := 0x123e4567e89b12d3a456426614174000, email := some "a@x.com" }
      (by decide) (by decide)).2.2.2.2.1⟩

end TodoAuth
